import Mathlib

/-!
Shallow embedding of the Morpheus agent-orchestration and responsible-AI
validation pipeline (backend/app/responsible_ai.py, backend/app/agents/__init__.py,
backend/app/agents/coordinator.py, backend/app/agents/addiction.py), together
with theorems settling the behavioural claims about it.

Modelling conventions:
* Python strings are Lean `String`s; `needle in hay` is `pyIn`, `.lower()` is
  `pyLower`, `.strip()` is `pyStrip`.
* Python regular-expression calls (`re.search` / `re.findall`) are abstracted by
  a `RegexOracle : String → String → Option String` mapping a pattern and a text
  to the first match (if any); all theorems quantify over the oracle, and
  concrete witnesses use oracles consistent with the actual patterns on the
  concrete texts involved.
* Python dict values are `PyVal`; a dict is an insertion-ordered association
  list; floats produced by score computations are exact rationals (the counts
  involved are far too coarse for IEEE rounding to affect any comparison made).
* `async` functions have no internal suspension visible to these claims and are
  modelled as pure functions; the possibility that the validation engine raises
  is modelled by an `Option String` argument carrying the exception message.
-/

namespace Morpheus

set_option maxRecDepth 8192

/-- The ASCII apostrophe character, used to build string literals. -/
def apos : String := String.mk [Char.ofNat 39]

/-- The right single quotation mark (U+2019) appearing in coordinator texts. -/
def rsquo : String := String.mk [Char.ofNat 8217]

/-- Executable contiguous-sublist test on character lists. -/
def listContainsSub (needle : List Char) : List Char → Bool
  | [] => needle.isEmpty
  | c :: rest => needle.isPrefixOf (c :: rest) || listContainsSub needle rest

/-- Python `needle in hay` for strings. -/
def pyIn (needle hay : String) : Bool := listContainsSub needle.data hay.data

/-- ASCII lower-casing of one character (all scanned tokens are ASCII). -/
def lowerChar (c : Char) : Char :=
  if 65 ≤ c.toNat ∧ c.toNat ≤ 90 then Char.ofNat (c.toNat + 32) else c

/-- Python `s.lower()`. -/
def pyLower (s : String) : String := String.mk (s.data.map lowerChar)

/-- Python `s.strip()`. -/
def pyStrip (s : String) : String :=
  String.mk (((s.data.dropWhile Char.isWhitespace).reverse.dropWhile
    Char.isWhitespace).reverse)

/-- Python `s == ""` / falsiness of a string. -/
def pyEmpty (s : String) : Bool := s.data.isEmpty

/-- Python `s.replace(a, "")` for a one-character pattern `a` (the only form of
removal the classifier normalization uses). -/
def pyRemoveChar (a : Char) (s : String) : String :=
  String.mk (s.data.filter (fun c => c ≠ a))

/-- Python `s.replace(a, b)` for one-character `a`, `b` (the only form of
substitution the check messages use). -/
def pyReplaceChar (a b : Char) (s : String) : String :=
  String.mk (s.data.map (fun c => if c = a then b else c))

/-- Split a character list at every separator character, keeping empty fields. -/
def splitChars (p : Char → Bool) : List Char → List (List Char)
  | [] => [[]]
  | c :: rest =>
    let r := splitChars p rest
    if p c then [] :: r
    else
      match r with
      | [] => [[c]]
      | w :: ws => (c :: w) :: ws

/-- Python `s.split()`: split on whitespace runs, dropping empty fields. -/
def pySplitWs (s : String) : List String :=
  ((splitChars Char.isWhitespace s.data).map String.mk).filter
    (fun w => !w.data.isEmpty)

/-- `RiskLevel` enum of `responsible_ai.py`. -/
inductive RiskLevel where
  | low
  | medium
  | high
  | critical
deriving DecidableEq, Repr, Fintype

/-- `RiskLevel.value`: the string carried by each enum member. -/
def RiskLevel.value : RiskLevel → String
  | .low => "low"
  | .medium => "medium"
  | .high => "high"
  | .critical => "critical"

/-- Position in the ordering list `["low", "medium", "high", "critical"]` used
by `comprehensive_check` to aggregate (total order low < medium < high < critical). -/
def riskIndex : RiskLevel → Nat
  | .low => 0
  | .medium => 1
  | .high => 2
  | .critical => 3

/-- Inverse of `RiskLevel.value` (total, defaulting to `low`). -/
def parseRisk (s : String) : RiskLevel :=
  if s = "medium" then .medium
  else if s = "high" then .high
  else if s = "critical" then .critical
  else .low

/-- Python values as far as the pipeline inspects them. -/
inductive PyVal where
  | none
  | bool (b : Bool)
  | str (s : String)
  | nat (n : Nat)
  | list (l : List PyVal)
  | dict (l : List (String × PyVal))

/-- Python truthiness for `PyVal`. -/
def pyTruthy : PyVal → Bool
  | .none => false
  | .bool b => b
  | .str s => !s.data.isEmpty
  | .nat n => n != 0
  | .list l => !l.isEmpty
  | .dict l => !l.isEmpty

/-- A Python dict / the mutable `AgentContext` key-value bag. -/
abbrev Ctx := List (String × PyVal)

/-- Python `d[k] = v` on a dict: replace in place if the key exists, else append. -/
def pySet (k : String) (v : PyVal) : Ctx → Ctx
  | [] => [(k, v)]
  | (k2, v2) :: rest => if k2 = k then (k, v) :: rest else (k2, v2) :: pySet k v rest

/-- Abstraction of the `re` module: pattern ↦ text ↦ first match (if any). -/
abbrev RegexOracle := String → String → Option String

/-- `ResponsibleAICheck` dataclass (the `metadata` diagnostic map, which no
checked behaviour reads, is not carried). -/
structure ResponsibleAICheck where
  passed : Bool
  risk_level : RiskLevel
  category : String
  message : String
  suggestions : List String
deriving DecidableEq, Repr

/-- `_init_fairness_patterns`. -/
def fairness_patterns : List (String × List String) :=
  [("age_bias",
     ["\\b(too old|too young|at your age|elderly|senior)\\b",
      "\\byoung people|older people\\b"]),
   ("gender_bias",
     ["\\b(men|women|male|female) (are|should|need to|typically)\\b",
      "\\bgender-specific\\b"]),
   ("cultural_bias",
     ["\\b(all people|everyone|typical|normal) (from|in) [A-Z][a-z]+\\b",
      "\\bcultural assumptions\\b"]),
   ("socioeconomic_bias",
     ["\\b(poor|rich|wealthy|low-income|high-income) people\\b",
      "\\bexpensive solutions only\\b"]),
   ("accessibility_bias",
     ["\\bjust (walk|run|exercise|go to gym)\\b",
      "\\bsimply (avoid|stop|change)\\b"]),
   ("medical_assumptions",
     ["\\ball patients with\\b",
      "\\beveryone with your condition\\b"])]

/-- `_init_transparency_actions`. -/
def transparency_required_actions : List String :=
  ["personalized_recommendation",
   "data_analysis",
   "pattern_detection",
   "risk_assessment",
   "behavioral_change_suggestion",
   "sleep_coaching_plan"]

/-- `_init_privacy_patterns` (literal `{`/`}` written with escapes). -/
def privacy_sensitive_data : List (String × List String) :=
  [("personal_identifiers",
     ["\\b\\d\x7b3\x7d-\\d\x7b2\x7d-\\d\x7b4\x7d\\b",
      "\\b[A-Za-z0-9._%+-]+@[A-Za-z0-9.-]+\\.[A-Z|a-z]\x7b2,\x7d\\b",
      "\\b\\d\x7b10,\x7d\\b"]),
   ("medical_details",
     ["\\bmedication:|prescription:|diagnosis:",
      "\\bdoctor said|physician|specialist|therapist"]),
   ("location_data",
     ["\\baddress:|live at|located at",
      "\\bGPS|coordinates|latitude|longitude"]),
   ("financial_info",
     ["\\bincome:|salary:|credit card|bank account",
      "\\$\\d+,?\\d*\\.?\\d\x7b0,2\x7d"])]

/-- Terms of `_calculate_inclusive_language_score`. -/
def inclusive_terms : List String :=
  ["everyone", "all people", "individuals", "people", "users",
   "may", "might", "could", "consider", "explore", "options"]

/-- Terms of `_calculate_inclusive_language_score`. -/
def exclusive_terms : List String :=
  ["all women", "all men", "typical", "normal", "standard",
   "everyone should", "you must", "always", "never"]

/-- `sum(1 for term in terms if term in text.lower())`. -/
def countTerms (terms : List String) (lowered : String) : Nat :=
  (terms.filter (fun term => pyIn term lowered)).length

/-- `_calculate_inclusive_language_score`. -/
def calculate_inclusive_language_score (text : String) : ℚ :=
  let ic := countTerms inclusive_terms (pyLower text)
  let ec := countTerms exclusive_terms (pyLower text)
  if ic + ec = 0 then 0.8
  else (ic : ℚ) / ((ic : ℚ) + (ec : ℚ) + 1)

/-- Terms of `_check_accessibility_considerations`. -/
def accessible_language : List String :=
  ["alternative", "option", "adapt", "modify", "accommodate",
   "if you" ++ apos ++ "re able", "as comfortable", "within your abilities"]

/-- Terms of `_check_accessibility_considerations`. -/
def inaccessible_language : List String :=
  ["just", "simply", "easy", "quick", "obviously", "clearly"]

/-- `_check_accessibility_considerations`. -/
def check_accessibility_considerations (text : String) : ℚ :=
  let ac := countTerms accessible_language (pyLower text)
  let ic := countTerms inaccessible_language (pyLower text)
  if ac + ic = 0 then 0.9
  else ((ac : ℚ) + 1) / ((ac : ℚ) + (ic : ℚ) + 1)

/-- Patterns of `_contains_stereotyping` (its `user_context` argument is unused
in the source). -/
def stereotyping_patterns : List String :=
  ["people like you",
   "given your (age|gender|background)",
   "typical for someone who",
   "most (men|women|people) your age"]

/-- `_contains_stereotyping`. -/
def contains_stereotyping (oracle : RegexOracle) (text : String) : Bool :=
  stereotyping_patterns.any (fun p => (oracle p text).isSome)

/-- Indicators of `_contains_explanation`. -/
def explanation_indicators : List String :=
  ["based on", "because", "due to", "analysis shows", "data indicates",
   "considering your", "taking into account", "the reason", "this suggests"]

/-- `_contains_explanation`. -/
def contains_explanation (text : String) : Bool :=
  explanation_indicators.any (fun i => pyIn i (pyLower text))

/-- Indicators of `_contains_data_source_info`. -/
def data_source_indicators : List String :=
  ["your sleep logs", "based on your data", "from your records",
   "your sleep history", "tracking shows", "your patterns"]

/-- `_contains_data_source_info`. -/
def contains_data_source_info (text : String) : Bool :=
  data_source_indicators.any (fun i => pyIn i (pyLower text))

/-- Indicators of `_acknowledges_limitations`. -/
def limitation_indicators : List String :=
  ["disclaimer", "not medical advice", "consult", "healthcare provider",
   "limitations", "may not apply", "individual results", "seek professional"]

/-- `_acknowledges_limitations`. -/
def acknowledges_limitations (text : String) : Bool :=
  limitation_indicators.any (fun i => pyIn i (pyLower text))

/-- Indicators of `_has_clear_attribution`. -/
def attribution_indicators : List String :=
  ["ai", "algorithm", "automated", "system", "morpheus",
   "sleep coach", "digital assistant"]

/-- `_has_clear_attribution`. -/
def has_clear_attribution (text : String) : Bool :=
  attribution_indicators.any (fun i => pyIn i (pyLower text))

/-- `_explains_decision_factors`, over the keys of the decision-factors dict. -/
def explains_decision_factors (text : String) (factorKeys : List String) : Bool :=
  if factorKeys.isEmpty then true
  else
    let mentioned := (factorKeys.filter (fun f => pyIn (pyLower f) (pyLower text))).length
    decide ((mentioned : ℚ) ≥ (factorKeys.length : ℚ) * 0.5)

/-- `_detect_privacy_violations`: one finding per matching pattern. -/
def detect_privacy_violations (oracle : RegexOracle) (text : String) : List String :=
  privacy_sensitive_data.flatMap (fun cp =>
    (cp.2.filter (fun p => (oracle p text).isSome)).map
      (fun _ => "Potential " ++ pyReplaceChar (Char.ofNat 95) (Char.ofNat 32) cp.1 ++ " exposure detected"))

/-- Allow-list of `_follows_data_minimization`. -/
def essential_fields : List String :=
  ["sleep_duration", "bedtime", "wake_time", "sleep_quality",
   "awakenings", "user_id", "date"]

/-- `_follows_data_minimization`, over the keys of the user-data dict. -/
def follows_data_minimization (userDataKeys : List String) : Bool :=
  if userDataKeys.isEmpty then true
  else decide ((userDataKeys.eraseDups.filter
    (fun k => !essential_fields.contains k)).length ≤ 3)

/-- Indicators of `_has_appropriate_consent_language`. -/
def consent_indicators : List String :=
  ["with your permission", "you can opt out", "data usage",
   "privacy", "consent", "your choice", "control"]

/-- `_has_appropriate_consent_language`. -/
def has_appropriate_consent_language (text : String) : Bool :=
  consent_indicators.any (fun i => pyIn i (pyLower text))

/-- Fields of `_handles_sensitive_data`. -/
def sensitive_fields : List String :=
  ["medical_conditions", "medications", "mental_health",
   "personal_notes", "location", "financial_info"]

/-- `_handles_sensitive_data`, over the keys of the user-data dict. -/
def handles_sensitive_data (userDataKeys : List String) : Bool :=
  sensitive_fields.any (fun f => userDataKeys.contains f)

/-- Indicators of `_mentions_security`. -/
def security_indicators : List String :=
  ["secure", "encrypted", "protected", "safe", "security",
   "confidential", "privacy", "safeguarded"]

/-- `_mentions_security`. -/
def mentions_security (text : String) : Bool :=
  security_indicators.any (fun i => pyIn i (pyLower text))

/-- Indicators of `_mentions_user_rights`. -/
def rights_indicators : List String :=
  ["delete", "modify", "access", "export", "control",
   "rights", "manage", "update", "remove"]

/-- `_mentions_user_rights`. -/
def mentions_user_rights (text : String) : Bool :=
  rights_indicators.any (fun i => pyIn i (pyLower text))

/-- `ResponsibleAIMiddleware.check_fairness`.  The `risk_level` local is
reassigned sequentially exactly as in the source (bias → medium, low inclusive
score → medium, stereotyping → high); the accessibility finding adds an issue
but no risk reassignment. -/
def check_fairness (oracle : RegexOracle) (text : String) : ResponsibleAICheck :=
  let biasIssues := fairness_patterns.flatMap (fun bp =>
    bp.2.filterMap (fun p => (oracle p text).map
      (fun m => "Potential " ++ pyReplaceChar (Char.ofNat 95) (Char.ofNat 32) bp.1 ++ " detected: " ++ m)))
  let inclusive_score := calculate_inclusive_language_score text
  let accessibility_score := check_accessibility_considerations text
  let inclIssue := decide (inclusive_score < 0.7)
  let accIssue := decide (accessibility_score < 0.8)
  let stereo := contains_stereotyping oracle text
  let issues := biasIssues
    ++ (if inclIssue then ["Response may not be sufficiently inclusive"] else [])
    ++ (if accIssue then ["Response may not consider accessibility needs"] else [])
    ++ (if stereo then ["Response may contain stereotyping"] else [])
  let suggestions :=
    (if inclIssue then ["Use more inclusive language that considers diverse backgrounds"] else [])
    ++ (if accIssue then ["Include alternatives for users with different abilities"] else [])
    ++ (if stereo then ["Provide personalized advice based on individual data, not assumptions"] else [])
  let suggestions := if issues.isEmpty then suggestions ++ ["Response appears fair and unbiased"] else suggestions
  let risk := RiskLevel.low
  let risk := if !biasIssues.isEmpty then RiskLevel.medium else risk
  let risk := if inclIssue then RiskLevel.medium else risk
  let risk := if stereo then RiskLevel.high else risk
  { passed := issues.isEmpty
    risk_level := risk
    category := "fairness"
    message := if issues.isEmpty then "Fairness check passed" else String.intercalate "; " issues
    suggestions := suggestions }

/-- `ResponsibleAIMiddleware.check_transparency`.  The `risk_level` local is
reassigned sequentially exactly as in the source; note the attribution finding
reassigns it to `low` after the three mandatory-transparency findings. -/
def check_transparency (text : String) (action_type : String)
    (_data_sources : List String) (factorKeys : List String) : ResponsibleAICheck :=
  let requires := transparency_required_actions.contains action_type
  let noExpl := requires && !contains_explanation text
  let noSrc := requires && !contains_data_source_info text
  let noLim := requires && !acknowledges_limitations text
  let noAttr := !has_clear_attribution text
  let factorIssue := !factorKeys.isEmpty && !explains_decision_factors text factorKeys
  let issues :=
    (if noExpl then ["Response lacks explanation of AI reasoning"] else [])
    ++ (if noSrc then ["Response doesn" ++ apos ++ "t disclose data sources used"] else [])
    ++ (if noLim then ["Response doesn" ++ apos ++ "t acknowledge AI limitations"] else [])
    ++ (if noAttr then ["Response doesn" ++ apos ++ "t clearly identify it" ++ apos ++ "s from AI"] else [])
    ++ (if factorIssue then ["Key decision factors not explained to user"] else [])
  let suggestions :=
    (if noExpl then ["Add explanation of how recommendations were generated"] else [])
    ++ (if noSrc then ["Mention what data was analyzed to generate this response"] else [])
    ++ (if noLim then ["Include disclaimer about AI limitations and when to seek human help"] else [])
    ++ (if noAttr then ["Make it clear this is AI-generated advice"] else [])
    ++ (if factorIssue then ["Explain what factors influenced this recommendation"] else [])
  let suggestions := if issues.isEmpty then suggestions ++ ["Response meets transparency requirements"] else suggestions
  let risk := RiskLevel.low
  let risk := if noExpl then RiskLevel.medium else risk
  let risk := if noSrc then RiskLevel.medium else risk
  let risk := if noLim then RiskLevel.medium else risk
  let risk := if noAttr then RiskLevel.low else risk
  let risk := if factorIssue then RiskLevel.medium else risk
  { passed := issues.isEmpty
    risk_level := risk
    category := "transparency"
    message := if issues.isEmpty then "Transparency check passed" else String.intercalate "; " issues
    suggestions := suggestions }

/-- `ResponsibleAIMiddleware.check_ethical_data_handling` (its
`data_retention_policy` argument only feeds the omitted metadata).  The
`risk_level` local is reassigned sequentially exactly as in the source; note the
user-rights finding reassigns it to `low` last. -/
def check_ethical_data_handling (oracle : RegexOracle) (text : String)
    (userDataKeys : List String) : ResponsibleAICheck :=
  let violations := detect_privacy_violations oracle text
  let minIssue := !follows_data_minimization userDataKeys
  let noConsent := !has_appropriate_consent_language text
  let sens := handles_sensitive_data userDataKeys
  let secIssue := sens && !mentions_security text
  let noRights := !mentions_user_rights text
  let issues := violations
    ++ (if minIssue then ["More data collected than necessary for sleep coaching"] else [])
    ++ (if noConsent then ["Response lacks appropriate consent language"] else [])
    ++ (if secIssue then ["No security assurance for sensitive data handling"] else [])
    ++ (if noRights then ["Response doesn" ++ apos ++ "t inform about user data rights"] else [])
  let suggestions :=
    (if !violations.isEmpty then ["Remove or anonymize sensitive information"] else [])
    ++ (if minIssue then ["Only collect data essential for sleep improvement"] else [])
    ++ (if noConsent then ["Include information about data usage and user rights"] else [])
    ++ (if secIssue then ["Mention data security measures when handling sensitive information"] else [])
    ++ (if noRights then ["Include information about user" ++ apos ++ "s right to access, modify, or delete data"] else [])
  let suggestions := if issues.isEmpty then suggestions ++ ["Ethical data handling requirements met"] else suggestions
  let risk := RiskLevel.low
  let risk := if !violations.isEmpty then RiskLevel.high else risk
  let risk := if minIssue then RiskLevel.medium else risk
  let risk := if noConsent then RiskLevel.medium else risk
  let risk := if secIssue then RiskLevel.medium else risk
  let risk := if noRights then RiskLevel.low else risk
  { passed := issues.isEmpty
    risk_level := risk
    category := "ethical_data_handling"
    message := if issues.isEmpty then "Ethical data handling check passed" else String.intercalate "; " issues
    suggestions := suggestions }

/-- Python `max(risk_levels, key=lambda x: [...].index(x.value))`: the first
element whose index is not exceeded by any later one. -/
def maxRiskBy : List RiskLevel → RiskLevel
  | [] => .low
  | x :: xs => xs.foldl (fun acc r => if riskIndex acc < riskIndex r then r else acc) x

/-- Return value of `ResponsibleAIMiddleware.comprehensive_check`: the dict of
the three category results plus the aggregate entry added under `"overall"`. -/
structure ComprehensiveResults where
  fairness : ResponsibleAICheck
  transparency : ResponsibleAICheck
  ethical_data_handling : ResponsibleAICheck
  overall : ResponsibleAICheck

/-- `ResponsibleAIMiddleware.comprehensive_check`: run all three checks, then
aggregate `passed` as the AND and `risk_level` as the index-maximum of the three
(the aggregation reads the dict before the `"overall"` entry is inserted). -/
def comprehensive_check (oracle : RegexOracle) (text : String) (action_type : String)
    (user_context : Ctx) (_data_sources : List String) (factorKeys : List String) :
    ComprehensiveResults :=
  let fairness_check := check_fairness oracle text
  let transparency_check := check_transparency text action_type _data_sources factorKeys
  let ethical_check := check_ethical_data_handling oracle text (user_context.map Prod.fst)
  let overall_risk := maxRiskBy
    [fairness_check.risk_level, transparency_check.risk_level, ethical_check.risk_level]
  { fairness := fairness_check
    transparency := transparency_check
    ethical_data_handling := ethical_check
    overall :=
      { passed := fairness_check.passed && transparency_check.passed && ethical_check.passed
        risk_level := overall_risk
        category := "comprehensive"
        message := "Comprehensive responsible AI check completed"
        suggestions := [] } }

/-- The serializable per-category dict built by
`BaseAgent._apply_responsible_ai_checks` (risk level rendered as its string). -/
structure SCheck where
  passed : Bool
  risk_level : String
  category : String
  message : String
  suggestions : List String
deriving DecidableEq, Repr

/-- Serialization of one check result. -/
def serializeCheck (c : ResponsibleAICheck) : SCheck :=
  { passed := c.passed
    risk_level := c.risk_level.value
    category := c.category
    message := c.message
    suggestions := c.suggestions }

/-- `AgentResponse` TypedDict (`total=False`: absent keys are `Option.none`). -/
structure AgentResponse where
  agent : String
  text : String
  data : Option PyVal := Option.none
  responsible_ai_checks : Option (List (String × SCheck)) := Option.none
  responsible_ai_passed : Option Bool := Option.none
  responsible_ai_risk_level : Option String := Option.none

/-- `response.get("data", {}).get("decision_factors", {})`, reduced to the keys
of the resulting dict (the only part of it the checks consume). -/
def decisionFactorKeys (r : AgentResponse) : List String :=
  match r.data with
  | some (.dict l) =>
    match l.lookup "decision_factors" with
    | some (.dict m) => m.map Prod.fst
    | _ => []
  | _ => []

/-- `BaseAgent._get_data_sources`. -/
def get_data_sources (ctx : Ctx) : List String :=
  (if pyTruthy ((ctx.lookup "logs").getD .none) then ["user_sleep_logs"] else [])
  ++ (if pyTruthy ((ctx.lookup "user").getD .none) then ["user_profile"] else [])
  ++ (if pyTruthy ((ctx.lookup "analysis").getD .none) then ["sleep_analysis"] else [])

/-- `BaseAgent._apply_responsible_ai_checks`.  `engineError = some e` models the
`except Exception` branch taken when the validation engine raises `e`; otherwise
the comprehensive results are serialized in dict insertion order. -/
def apply_responsible_ai_checks (engineError : Option String) (oracle : RegexOracle)
    (action_type : String) (response : AgentResponse) (ctx : Ctx) :
    List (String × SCheck) :=
  match engineError with
  | some e =>
    [("error",
      { passed := false
        risk_level := "medium"
        category := "system_error"
        message := "Responsible AI check failed: " ++ e
        suggestions := ["Manual review recommended"] })]
  | Option.none =>
    let checks := comprehensive_check oracle response.text action_type ctx
      (get_data_sources ctx) (decisionFactorKeys response)
    [("fairness", serializeCheck checks.fairness),
     ("transparency", serializeCheck checks.transparency),
     ("ethical_data_handling", serializeCheck checks.ethical_data_handling),
     ("overall", serializeCheck checks.overall)]

/-- Apology clause prepended by `BaseAgent._handle_critical_ai_issues`. -/
def apology_clause : String :=
  "I apologize, but I need to modify my response to ensure it meets our responsible AI guidelines. "

/-- Disclaimer block appended by `BaseAgent._handle_critical_ai_issues`
(five bullets in the source). -/
def critical_disclaimers : String :=
  "**Important Disclaimers:**\n"
  ++ "- This is AI-generated educational guidance, not medical advice\n"
  ++ "- Individual results may vary based on personal circumstances\n"
  ++ "- Please consult healthcare providers for serious sleep disorders\n"
  ++ "- Your privacy and data security are our top priorities\n"
  ++ "- You have full control over your data and can modify or delete it anytime"

/-- `BaseAgent._handle_critical_ai_issues`: collect every critical-level entry's
message and suggestions, rewrite the text around the unmodified original, and
record the modification under `data["responsible_ai_modification"]`.  (When
`data` is present but not a dict the source's item assignment would raise; no
agent produces such a response, and the value is left unchanged here.) -/
def handle_critical_ai_issues (response : AgentResponse)
    (results : List (String × SCheck)) : AgentResponse :=
  let criticalResults := results.filter (fun kv => kv.2.risk_level = "critical")
  let critical_issues := criticalResults.map (fun kv => kv.2.message)
  let suggestions := criticalResults.flatMap (fun kv => kv.2.suggestions)
  let newText := apology_clause ++ response.text ++ "\n\n" ++ critical_disclaimers
  let modification := PyVal.dict
    [("modified", .bool true),
     ("critical_issues", .list (critical_issues.map PyVal.str)),
     ("modifications_made", .list (suggestions.map PyVal.str))]
  let newData := match response.data with
    | some (.dict l) => PyVal.dict (pySet "responsible_ai_modification" modification l)
    | some v => v
    | Option.none => PyVal.dict [("responsible_ai_modification", modification)]
  { response with text := newText, data := some newData }

/-- `BaseAgent.handle`: run the variant's core logic, and when checking is
enabled merge the validation verdict into the response, rewriting it when the
reported overall risk level is `"critical"`.  The missing-module fallback of
the module load at the top of `agents/__init__.py` never fires (the module is
present), so only `enable_responsible_ai` gates the check. -/
def handle (core : String → Ctx → AgentResponse) (action_type : String)
    (enable_responsible_ai : Bool) (engineError : Option String)
    (oracle : RegexOracle) (message : String) (ctx : Ctx) : AgentResponse :=
  let response := core message ctx
  if enable_responsible_ai then
    let results := apply_responsible_ai_checks engineError oracle action_type response ctx
    let overall := results.lookup "overall"
    let response := { response with
      responsible_ai_checks := some results
      responsible_ai_passed := some ((overall.map SCheck.passed).getD true)
      responsible_ai_risk_level := some ((overall.map SCheck.risk_level).getD "low") }
    if response.responsible_ai_risk_level = some "critical" then
      handle_critical_ai_issues response results
    else response
  else response

/-- `TRIGGERS` of `agents/addiction.py`. -/
def TRIGGERS : List String :=
  ["addict", "dependen", "craving", "withdrawal", "quit"]

/-- `SUBSTANCE_PATTERNS` of `agents/addiction.py`. -/
def SUBSTANCE_PATTERNS : List (String × List String) :=
  [("caffeine",
     ["coffee", "coffe", "tea", "energy drink",
      "caffeine", "caffine", "caffiene", "cafine", "cafeine",
      "espresso", "latte", "cappuccino", "red bull", "monster"]),
   ("alcohol",
     ["wine", "beer", "vodka", "whiskey", "drinking", "alcohol", "cocktail",
      "rum", "gin", "tequila"]),
   ("nicotine",
     ["smoking", "cigarette", "vaping", "nicotine", "tobacco", "juul",
      "e-cigarette", "cigar"]),
   ("digital",
     ["phone", "social media", "scrolling", "screen time", "gaming", "netflix",
      "youtube", "tiktok", "instagram"])]

/-- Neutral info-seeking phrases of `AddictionAgent._detect_addiction_context`. -/
def neutral_info_phrases : List String :=
  ["tell me about", "what is", "what are", "explain", "definition of",
   "effects of", "effect of", "impact of", "how does", "why does"]

/-- Concerning phrases of `AddictionAgent._detect_addiction_context`. -/
def concerning_phrases : List String :=
  ["too much", "can" ++ apos ++ "t stop", "every day", "multiple times",
   "worry about", "problem with", "bad habit", "need to quit"]

/-- `AddictionAgent._detect_addiction_context`: the deterministic
dependency-context predicate. -/
def detect_addiction_context (message : String) : Bool :=
  if pyEmpty message then false
  else
    let t := pyLower message
    let hasTrigger := TRIGGERS.any (fun tr => pyIn tr t)
    if neutral_info_phrases.any (fun p => pyIn p t) && !hasTrigger then false
    else if hasTrigger then true
    else
      let has_substance := SUBSTANCE_PATTERNS.any (fun sp => sp.2.any (fun k => pyIn k t))
      let has_concern := concerning_phrases.any (fun p => pyIn p t)
      has_substance && has_concern

/-- `ADDICTION_PATTERNS` of `agents/addiction.py` (regex pattern table). -/
def ADDICTION_PATTERNS : List (String × List String) :=
  [("high_severity",
     ["can" ++ apos ++ "t (stop|quit|live without)",
      "(need|must have|have to have)",
      "withdrawal",
      "shaking|trembling",
      "panic when (out of|without)",
      "multiple pots of coffee",
      "blackout",
      "can" ++ apos ++ "t function without"]),
   ("medium_severity",
     ["addicted to",
      "dependent on",
      "crave|craving",
      "can" ++ apos ++ "t sleep without",
      "multiple times (a day|daily)",
      "too much every day",
      "habit is out of control"]),
   ("low_severity",
     ["too much (coffee|alcohol|caffeine)",
      "should (cut back|reduce)",
      "probably drinking too much",
      "might be having too much",
      "starting to worry about"])]

/-- `INTERVENTION_LEVELS` of `agents/addiction.py`. -/
def INTERVENTION_LEVELS : List (String × String) :=
  [("high_severity", "REFERRAL"),
   ("medium_severity", "SUPPORTIVE"),
   ("low_severity", "EDUCATIONAL")]

/-- `AddictionAgent._assess_addiction_severity`. -/
def assess_addiction_severity (oracle : RegexOracle) (message : String) :
    String × List String :=
  if pyEmpty message then ("low_severity", [])
  else
    let t := pyLower message
    let severity :=
      match ["high_severity", "medium_severity", "low_severity"].find? (fun level =>
        ((ADDICTION_PATTERNS.lookup level).getD []).any (fun p => (oracle p t).isSome)) with
      | some level => level
      | Option.none => "low_severity"
    let substances := (SUBSTANCE_PATTERNS.filter
      (fun sp => sp.2.any (fun k => pyIn k t))).map Prod.fst
    let severity :=
      if !substances.isEmpty && substances.length > 2 && severity = "low_severity" then
        "medium_severity"
      else severity
    (severity, substances)

/-- Generic support chooser text of `AddictionAgent._handle_core` (emoji glyphs
of the source rendered as plain bullets). -/
def addiction_chooser_text : String :=
  "I" ++ apos ++ "m here to help with addiction concerns related to sleep. "
  ++ "I can provide support for:\n"
  ++ "• **Caffeine** (coffee, tea, energy drinks)\n"
  ++ "• **Alcohol** dependency issues\n"
  ++ "• **Nicotine** and tobacco use\n"
  ++ "• **Digital/Screen time** addiction\n\n"
  ++ "What would you like support with today?"

/-- `DISCLAIMER` of `agents/addiction.py`. -/
def ADDICTION_DISCLAIMER : String :=
  "_This is supportive educational guidance, not medical or addiction treatment. "
  ++ "If you struggle with addiction, please consult a qualified clinician or counselor._"

/-- High-severity crisis text of `AddictionAgent._handle_core`; the crisis
resource list assembled by `_get_crisis_resources` is abstracted by the
`crisisResources` argument (its content is hotline text that no checked
behaviour inspects). -/
def addiction_crisis_text (substances : List String) (crisisResources : List String) : String :=
  "I" ++ apos ++ "m concerned about the severity of what you" ++ apos ++ "re describing with "
  ++ String.intercalate ", " substances ++ ". "
  ++ "Your safety is the top priority, and withdrawal from some substances can be medically dangerous.\n\n"
  ++ String.intercalate "\n" crisisResources ++ "\n\n"
  ++ "Please reach out to a healthcare provider or crisis line immediately. "
  ++ "I" ++ apos ++ "m here to support you, but professional medical guidance is essential right now.\n\n"
  ++ ADDICTION_DISCLAIMER

/-- Content hooks for `AddictionAgent._handle_core`: the text-generating
subroutines (`generate_gemini_text` / `_generate_fallback_response`,
`_connect_to_sleep_impact`, `_get_crisis_resources`, `_format_reduction_plans`,
`_generate_progress_check`) whose output strings shape only the prose of the
response; the branch structure, severity assessment, returned `agent` tag and
`data` skeleton are modelled directly. -/
structure AddictionContent where
  llmOrFallbackText : List String → String → String
  sleepImpactText : List String → String
  crisisResources : List String → List String
  plansText : List String → String → String
  progressCheck : String

/-- `AddictionAgent._handle_core`.  All three return branches tag the response
with `agent = "addiction"`; the reduction-plan / user-pattern payload details
are carried by `content` (see `AddictionContent`). -/
def addiction_core (oracle : RegexOracle) (content : AddictionContent)
    (message : String) (_ctx : Ctx) : AgentResponse :=
  let sv := assess_addiction_severity oracle message
  let severity := sv.1
  let substances := sv.2
  if substances.isEmpty then
    { agent := "addiction", text := addiction_chooser_text }
  else if severity = "high_severity" then
    { agent := "addiction"
      text := addiction_crisis_text substances (content.crisisResources substances)
      data := some (.dict
        [("severity", .str severity),
         ("substances", .list (substances.map PyVal.str)),
         ("intervention_level", .str "CRISIS"),
         ("requires_immediate_attention", .bool true)]) }
  else
    { agent := "addiction"
      text := content.sleepImpactText substances
        ++ content.llmOrFallbackText substances severity ++ "\n\n"
        ++ content.plansText substances severity ++ content.progressCheck ++ "\n\n"
        ++ ADDICTION_DISCLAIMER
      data := some (.dict
        [("severity", .str severity),
         ("substances", .list (substances.map PyVal.str)),
         ("intervention_level", .str ((INTERVENTION_LEVELS.lookup severity).getD "EDUCATIONAL"))]) }

/-- `WELCOME_MENU` of `agents/coordinator.py`. -/
def WELCOME_MENU : List String :=
  ["• Log last night" ++ apos ++ "s sleep",
   "• Analyze my last 7 days",
   "• Give me a 7-day improvement plan",
   "• Predict tonight" ++ apos ++ "s sleep quality",
   "• Get optimal bedtime recommendation",
   "• What do reputable sources say about caffeine/screens/bedtime?",
   "• Get lifestyle guidance from my logs (caffeine/alcohol)",
   "• Tell me a bedtime story"]

/-- `_ALLOWED` of `agents/coordinator.py`: the closed label set. -/
def allowed_labels : List String :=
  ["analytics", "coach", "information", "nutrition", "storyteller",
   "addiction", "prediction"]

/-- Analytics keywords of `CoordinatorAgent._intent_keyword`. -/
def analytics_keywords : List String :=
  ["analy", "trend", "week", "report", "summary", "insight"]

/-- Prediction keywords of `CoordinatorAgent._intent_keyword`. -/
def prediction_keywords : List String :=
  ["predict", "tonight", "tomorrow", "quality", "bedtime", "when should", "optimal"]

/-- `personal_cues` of `CoordinatorAgent._intent_keyword` / `_intent_llm`. -/
def personal_cues : List String :=
  ["my ", "i ", "i" ++ apos ++ "m", "i am", "based on my", "my logs",
   "last night", "last week", "should i", "what should i"]

/-- `lifestyle_terms` of `CoordinatorAgent._intent_keyword`. -/
def lifestyle_terms : List String :=
  ["caffeine", "coffee", "alcohol", "diet", "food", "eating", "exercise",
   "workout", "screens", "screen"]

/-- General-information request keywords of `CoordinatorAgent._intent_keyword`. -/
def info_request_keywords : List String :=
  ["explain", "what is", "define", "tell me about", "effect of", "impact of",
   "how does"]

/-- Coaching keywords of `CoordinatorAgent._intent_keyword`. -/
def coach_keywords : List String :=
  ["plan", "tips", "improve", "advice", "coach"]

/-- Substance vocabulary of the addiction guard in `CoordinatorAgent._intent_llm`. -/
def substance_guard_terms : List String :=
  ["caffeine", "coffee", "alcohol", "nicotine", "smoking", "screen", "screens"]

/-- `CoordinatorAgent._intent_keyword`: the deterministic fallback classifier. -/
def intent_keyword (msg : String) : String :=
  let t := pyLower msg
  if analytics_keywords.any (fun k => pyIn k t) then "analytics"
  else if prediction_keywords.any (fun k => pyIn k t) then "prediction"
  else if detect_addiction_context msg then "addiction"
  else if lifestyle_terms.any (fun k => pyIn k t) then
    (if personal_cues.any (fun c => pyIn c t) then "nutrition"
     else if info_request_keywords.any (fun k => pyIn k t) then "information"
     else "nutrition")
  else if coach_keywords.any (fun k => pyIn k t) then "coach"
  else "coach"

/-- Normalization applied by `CoordinatorAgent._intent_llm` to the raw model
reply: strip, lowercase, drop quotes and periods, split on whitespace. -/
def normalize_llm_reply (raw : String) : List String :=
  pySplitWs (pyRemoveChar (Char.ofNat 46) (pyRemoveChar (Char.ofNat 34)
    (pyRemoveChar (Char.ofNat 39) (pyLower (pyStrip raw)))))

/-- `CoordinatorAgent._intent_llm`.  `llmReply = none` models every "provider
declined" outcome (`gemini_ready()` false, exception, empty reply); otherwise
the reply is normalized, validated against the closed label set, and the
addiction guard demotes an unconfirmed `"addiction"` choice. -/
def intent_llm (llmReply : Option String) (message : String) : Option String :=
  match llmReply with
  | Option.none => Option.none
  | some raw =>
    match normalize_llm_reply raw with
    | [] => Option.none
    | choice :: _ =>
      if !allowed_labels.contains choice then Option.none
      else if choice = "addiction" && !detect_addiction_context message then
        let t := pyLower message
        if substance_guard_terms.any (fun k => pyIn k t) then
          (if personal_cues.any (fun c => pyIn c t) then some "nutrition"
           else some "information")
        else some "coach"
      else some choice

/-- Welcome text of the coordinator's greeting branch. -/
def greeting_text (ctx : Ctx) : String :=
  let menu := String.intercalate "\n" WELCOME_MENU
  let dn := pyStrip (match ctx.lookup "display_name" with
    | some (PyVal.str s) => s
    | _ => "")
  let name_part := if !pyEmpty dn then " " ++ dn else ""
  "Hi" ++ name_part ++ "! I" ++ rsquo ++ "m your sleep coordinator.\n\n"
  ++ "Here are some things you can try:\n" ++ menu ++ "\n\n"
  ++ "Or just ask in your own words — I" ++ rsquo ++ "ll route it to the right agent."

/-- The coordinator's registry of domain agents, as the wrapped `handle`
entry points the dispatch code invokes. -/
structure SubAgents where
  analyst : String → Ctx → AgentResponse
  coach : String → Ctx → AgentResponse
  nutrition : String → Ctx → AgentResponse
  addiction : String → Ctx → AgentResponse
  info : String → Ctx → AgentResponse
  story : String → Ctx → AgentResponse
  prediction : String → Ctx → AgentResponse

/-- One logged dispatch: target agent registry label, message, context passed. -/
abbrev CallLog := List (String × String × Ctx)

/-- `CoordinatorAgent._handle_core`, instrumented with the list of sub-agent
`handle` invocations it performs (in order).  The context mutation
`ctx["analysis"] = analysis_result["data"]` happens after the analytics call
and before the coaching call, exactly as in the source. -/
def coordinator_core (agents : SubAgents) (llmReply : Option String)
    (message : String) (ctx : Ctx) : AgentResponse × CallLog :=
  if pyEmpty (pyStrip message)
      || ["hi", "hello", "hey"].contains (pyLower (pyStrip message)) then
    ({ agent := "coordinator", text := greeting_text ctx }, [])
  else if detect_addiction_context message then
    (agents.addiction message ctx, [("addiction", message, ctx)])
  else
    let intent := (intent_llm llmReply message).getD (intent_keyword message)
    if intent = "analytics" || intent = "coach" then
      let analysis_result := agents.analyst message ctx
      if intent = "analytics" then
        (analysis_result, [("analytics", message, ctx)])
      else
        let ctx2 := match analysis_result.data with
          | some d => pySet "analysis" d ctx
          | Option.none => ctx
        (agents.coach message ctx2,
         [("analytics", message, ctx), ("coach", message, ctx2)])
    else if intent = "information" then
      (agents.info message ctx, [("information", message, ctx)])
    else if intent = "nutrition" then
      (agents.nutrition message ctx, [("nutrition", message, ctx)])
    else if intent = "storyteller" then
      (agents.story message ctx, [("storyteller", message, ctx)])
    else if intent = "addiction" then
      (agents.addiction message ctx, [("addiction", message, ctx)])
    else if intent = "prediction" then
      (agents.prediction message ctx, [("prediction", message, ctx)])
    else
      (agents.coach message ctx, [("coach", message, ctx)])

/-! ### Specification-side definitions used by refinement claims -/

/-- The fallback classifier as the specification words it: an ordered
predicate/label table (analytics-trend words, prediction/bedtime words,
dependency-context, lifestyle with personal cues, lifestyle with neutral
info phrasing, lifestyle default, coaching words). -/
def spec_fallback_table (msg : String) : List (Bool × String) :=
  let t := pyLower msg
  [(analytics_keywords.any (fun k => pyIn k t), "analytics"),
   (prediction_keywords.any (fun k => pyIn k t), "prediction"),
   (detect_addiction_context msg, "addiction"),
   (lifestyle_terms.any (fun k => pyIn k t)
      && personal_cues.any (fun c => pyIn c t), "nutrition"),
   (lifestyle_terms.any (fun k => pyIn k t)
      && info_request_keywords.any (fun k => pyIn k t), "information"),
   (lifestyle_terms.any (fun k => pyIn k t), "nutrition"),
   (coach_keywords.any (fun k => pyIn k t), "coach")]

/-- First-match-wins evaluation of the specification's predicate table, with
the generic coaching label as final default. -/
def spec_first_match (msg : String) : String :=
  match (spec_fallback_table msg).find? (fun pr => pr.1) with
  | some pr => pr.2
  | Option.none => "coach"

/-! ### Claim theorems -/

/-- C3: with the LLM phase unavailable, the fallback classifier agrees with the
spec's ordered first-match predicate list, and always returns exactly one label
from the closed seven-label set (it is a total `String`-valued function, so it
can never return "no decision"). -/
theorem c3_fallback_classifier_totality (msg : String) :
    intent_keyword msg = spec_first_match msg ∧ intent_keyword msg ∈ allowed_labels := by
  simp only [intent_keyword, spec_first_match, spec_fallback_table, allowed_labels]
  cases h1 : analytics_keywords.any (fun k => pyIn k (pyLower msg)) <;>
  cases h2 : prediction_keywords.any (fun k => pyIn k (pyLower msg)) <;>
  cases h3 : detect_addiction_context msg <;>
  cases h4 : lifestyle_terms.any (fun k => pyIn k (pyLower msg)) <;>
  cases h5 : personal_cues.any (fun c => pyIn c (pyLower msg)) <;>
  cases h6 : info_request_keywords.any (fun k => pyIn k (pyLower msg)) <;>
  cases h7 : coach_keywords.any (fun k => pyIn k (pyLower msg)) <;>
    simp [h1, h2, h3, h4, h5, h6, h7, List.find?]

/-- C4: when the deterministic dependency-context predicate rejects the
message, the primary classifier's `"addiction"` choice is remapped (lifestyle
vocabulary + personal phrasing → `"nutrition"`, lifestyle vocabulary alone →
`"information"`, otherwise → `"coach"`), and no primary reply whatsoever can
make the classifier return the dependency label. -/
theorem c4_addiction_guard_remap (msg : String)
    (h : detect_addiction_context msg = false) :
    (∀ r : Option String, intent_llm r msg ≠ some "addiction") ∧
    (∀ raw rest, normalize_llm_reply raw = "addiction" :: rest →
      intent_llm (some raw) msg = some
        (if substance_guard_terms.any (fun k => pyIn k (pyLower msg)) then
          (if personal_cues.any (fun c => pyIn c (pyLower msg)) then "nutrition"
           else "information")
         else "coach")) := by
  constructor
  · intro r
    match r with
    | Option.none => simp [intent_llm]
    | some raw =>
      simp only [intent_llm]
      match hn : normalize_llm_reply raw with
      | [] => simp
      | choice :: rest =>
        by_cases hc : choice = "addiction"
        · subst hc
          simp [h, allowed_labels]
          split <;> (try split) <;> simp
        · simp only [h]
          split
          · simp
          · simp [hc]
  · intro raw rest hn
    cases hs : substance_guard_terms.any (fun k => pyIn k (pyLower msg)) <;>
    cases hp : personal_cues.any (fun c => pyIn c (pyLower msg)) <;>
      simp [intent_llm, hn, h, hs, hp, allowed_labels]

/-- Witness for C4 at the spec's own example: the bare substance word
`"coffee"` with a mocked primary phase answering `"addiction"`. -/
theorem c4_addiction_guard_remap_witness :
    detect_addiction_context "coffee" = false ∧
    intent_llm (some "addiction") "coffee" = some "information" ∧
    intent_llm (some "addiction") "coffee" ≠ some "addiction" := by
  have h := c4_addiction_guard_remap "coffee" (by decide)
  refine ⟨by decide, ?_, h.1 (some "addiction")⟩
  exact (h.2 "addiction" [] (by decide)).trans (by decide)

/-- C9: when the validation engine raises, the wrapper substitutes exactly one
synthetic `system_error` category result (failed, `medium` risk) into
`responsible_ai_checks` and still returns the core response to the caller. -/
theorem c9_engine_failure_policy (core : String → Ctx → AgentResponse)
    (action_type : String) (oracle : RegexOracle) (msg : String) (ctx : Ctx)
    (e : String) :
    (handle core action_type true (some e) oracle msg ctx).responsible_ai_checks =
      some [("error",
        { passed := false
          risk_level := "medium"
          category := "system_error"
          message := "Responsible AI check failed: " ++ e
          suggestions := ["Manual review recommended"] })] ∧
    (handle core action_type true (some e) oracle msg ctx).agent = (core msg ctx).agent ∧
    (handle core action_type true (some e) oracle msg ctx).text = (core msg ctx).text ∧
    (handle core action_type true (some e) oracle msg ctx).data = (core msg ctx).data := by
  simp [handle, apply_responsible_ai_checks, List.lookup]

/-- Helper: transports on finite risk levels: the index-maximum of three
non-`critical` levels is not `critical`. -/
theorem maxRiskBy_three_not_critical : ∀ r1 r2 r3 : RiskLevel,
    riskIndex r1 ≤ 2 → riskIndex r2 ≤ 2 → riskIndex r3 ≤ 2 →
    maxRiskBy [r1, r2, r3] ≠ .critical := by decide

/-- Helper: the fairness check's sequential risk reassignments top out at `high`. -/
theorem check_fairness_risk_le (oracle : RegexOracle) (text : String) :
    riskIndex (check_fairness oracle text).risk_level ≤ 2 := by
  simp only [check_fairness]
  split <;> (try split) <;> (try split) <;> decide

/-- Helper: the transparency check's sequential risk reassignments top out at
`medium`. -/
theorem check_transparency_risk_le (text action_type : String)
    (ds fk : List String) :
    riskIndex (check_transparency text action_type ds fk).risk_level ≤ 1 := by
  simp only [check_transparency]
  split <;> (try split) <;> (try split) <;> (try split) <;> (try split) <;> decide

/-- Helper: the ethical-data-handling check's sequential risk reassignments top
out at `high`. -/
theorem check_ethical_risk_le (oracle : RegexOracle) (text : String)
    (userKeys : List String) :
    riskIndex (check_ethical_data_handling oracle text userKeys).risk_level ≤ 2 := by
  simp only [check_ethical_data_handling]
  split <;> (try split) <;> (try split) <;> (try split) <;> (try split) <;> decide

/-- Helper: rendering a non-`critical` risk level never yields `"critical"`. -/
theorem riskValue_ne_critical : ∀ r : RiskLevel, r ≠ .critical → r.value ≠ "critical" := by
  decide

/-- Helper: `RiskLevel.value` then `parseRisk` is the identity. -/
theorem parseRisk_value : ∀ r : RiskLevel, parseRisk r.value = r := by decide

/-- Helper: the three responsible-AI fields that `BaseAgent.handle` merges into
the response on a successful engine run, stated for both the rewritten and the
non-rewritten branch (the critical rewrite touches only `text` and `data`). -/
theorem handle_success_fields (core : String → Ctx → AgentResponse)
    (action_type : String) (oracle : RegexOracle) (msg : String) (ctx : Ctx) :
    (handle core action_type true Option.none oracle msg ctx).responsible_ai_checks =
      some [("fairness", serializeCheck (comprehensive_check oracle (core msg ctx).text
              action_type ctx (get_data_sources ctx) (decisionFactorKeys (core msg ctx))).fairness),
            ("transparency", serializeCheck (comprehensive_check oracle (core msg ctx).text
              action_type ctx (get_data_sources ctx) (decisionFactorKeys (core msg ctx))).transparency),
            ("ethical_data_handling", serializeCheck (comprehensive_check oracle (core msg ctx).text
              action_type ctx (get_data_sources ctx) (decisionFactorKeys (core msg ctx))).ethical_data_handling),
            ("overall", serializeCheck (comprehensive_check oracle (core msg ctx).text
              action_type ctx (get_data_sources ctx) (decisionFactorKeys (core msg ctx))).overall)] ∧
    (handle core action_type true Option.none oracle msg ctx).responsible_ai_passed =
      some (comprehensive_check oracle (core msg ctx).text action_type ctx
        (get_data_sources ctx) (decisionFactorKeys (core msg ctx))).overall.passed ∧
    (handle core action_type true Option.none oracle msg ctx).responsible_ai_risk_level =
      some (comprehensive_check oracle (core msg ctx).text action_type ctx
        (get_data_sources ctx) (decisionFactorKeys (core msg ctx))).overall.risk_level.value := by
  have hl : ∀ a b c d : SCheck, List.lookup "overall"
      [("fairness", a), ("transparency", b), ("ethical_data_handling", c), ("overall", d)] =
        some d := fun a b c d => rfl
  refine ⟨?_, ?_, ?_⟩ <;>
    simp only [handle, apply_responsible_ai_checks, hl, Option.map_some', Option.getD_some,
      serializeCheck, apply_ite AgentResponse.responsible_ai_checks,
      apply_ite AgentResponse.responsible_ai_passed,
      apply_ite AgentResponse.responsible_ai_risk_level,
      handle_critical_ai_issues, ite_self, if_true, if_false]

/-- Helper: a successful engine run never takes the critical-rewrite branch, so
the delivered text is the core text. -/
theorem handle_no_critical_rewrite (core : String → Ctx → AgentResponse)
    (action_type : String) (enable : Bool) (oracle : RegexOracle)
    (msg : String) (ctx : Ctx) :
    (handle core action_type enable Option.none oracle msg ctx).text = (core msg ctx).text := by
  cases enable
  · rfl
  · have hnc : (comprehensive_check oracle (core msg ctx).text action_type ctx
        (get_data_sources ctx) (decisionFactorKeys (core msg ctx))).overall.risk_level ≠
        .critical := by
      exact maxRiskBy_three_not_critical _ _ _
        (check_fairness_risk_le oracle (core msg ctx).text)
        (le_trans (check_transparency_risk_le (core msg ctx).text action_type
          (get_data_sources ctx) (decisionFactorKeys (core msg ctx))) (by norm_num))
        (check_ethical_risk_le oracle (core msg ctx).text (ctx.map Prod.fst))
    have hv := riskValue_ne_critical _ hnc
    have hl : ∀ a b c d : SCheck, List.lookup "overall"
        [("fairness", a), ("transparency", b), ("ethical_data_handling", c), ("overall", d)] =
          some d := fun a b c d => rfl
    simp only [handle, apply_responsible_ai_checks, hl, Option.map_some', Option.getD_some,
      serializeCheck, if_true]
    rw [if_neg (by simp [hv])]

/-- C10: no category check ever reports `critical` (fairness at most `high`,
transparency at most `medium`, ethical data handling at most `high`), so on a
successful engine run the overall risk level is never `critical` and the
wrapper's critical-remediation rewrite branch is unreachable: the delivered
text is always the core text. -/
theorem c10_no_category_is_critical (oracle : RegexOracle)
    (text action_type : String) (user_ctx : Ctx) (ds fk userKeys : List String) :
    riskIndex (check_fairness oracle text).risk_level ≤ 2 ∧
    riskIndex (check_transparency text action_type ds fk).risk_level ≤ 1 ∧
    riskIndex (check_ethical_data_handling oracle text userKeys).risk_level ≤ 2 ∧
    (comprehensive_check oracle text action_type user_ctx ds fk).overall.risk_level ≠
      .critical ∧
    (∀ (core : String → Ctx → AgentResponse) (enable : Bool) (msg : String) (ctx : Ctx),
      (handle core action_type enable Option.none oracle msg ctx).text = (core msg ctx).text) := by
  refine ⟨check_fairness_risk_le oracle text,
    check_transparency_risk_le text action_type ds fk,
    check_ethical_risk_le oracle text userKeys,
    maxRiskBy_three_not_critical _ _ _
      (check_fairness_risk_le oracle text)
      (le_trans (check_transparency_risk_le text action_type ds fk) (by norm_num))
      (check_ethical_risk_le oracle text (user_ctx.map Prod.fst)),
    fun core enable msg ctx => handle_no_critical_rewrite core action_type enable oracle msg ctx⟩

/-- C1 (amended): on every wrapped invocation with checking enabled in which
the validation engine completes without raising, `responsible_ai_passed` is the
AND of the per-category `passed` results and `responsible_ai_risk_level` is
their index-maximum under low < medium < high < critical. -/
theorem c1_aggregation (core : String → Ctx → AgentResponse)
    (action_type : String) (oracle : RegexOracle) (msg : String) (ctx : Ctx) :
    ∃ f t e o : SCheck,
      (handle core action_type true Option.none oracle msg ctx).responsible_ai_checks =
        some [("fairness", f), ("transparency", t), ("ethical_data_handling", e), ("overall", o)] ∧
      (handle core action_type true Option.none oracle msg ctx).responsible_ai_passed =
        some ([f, t, e].all SCheck.passed) ∧
      (handle core action_type true Option.none oracle msg ctx).responsible_ai_risk_level =
        some (RiskLevel.value (maxRiskBy
          [parseRisk f.risk_level, parseRisk t.risk_level, parseRisk e.risk_level])) := by
  obtain ⟨h1, h2, h3⟩ := handle_success_fields core action_type oracle msg ctx
  refine ⟨_, _, _, _, h1, ?_, ?_⟩
  · rw [h2]
    simp only [serializeCheck, comprehensive_check, List.all]
    cases (check_fairness oracle (core msg ctx).text).passed <;>
    cases (check_transparency (core msg ctx).text action_type (get_data_sources ctx)
      (decisionFactorKeys (core msg ctx))).passed <;>
    cases (check_ethical_data_handling oracle (core msg ctx).text (ctx.map Prod.fst)).passed <;>
      rfl
  · rw [h3]
    simp only [serializeCheck, comprehensive_check, parseRisk_value]

/-- Counterexample to C1 as stated: when the validation engine raises, the
response carries a single failed category entry yet `responsible_ai_passed`
defaults to `true`, so it is not the AND of the per-category results. -/
theorem c1_counterexample :
    ¬ ((handle (fun _ _ => { agent := "x", text := "t" }) "general_response" true (some "boom")
          (fun _ _ => Option.none) "m" []).responsible_ai_passed =
       some (((handle (fun _ _ => { agent := "x", text := "t" }) "general_response" true (some "boom")
          (fun _ _ => Option.none) "m" []).responsible_ai_checks.getD []).all
            (fun kv => kv.2.passed))) := by
  decide

/-- Helper: a list is a prefix-test success of any right-extension of itself. -/
theorem isPrefixOf_self_append : ∀ (y z : List Char), y.isPrefixOf (y ++ z) = true
  | [], z => by cases z <;> rfl
  | a :: y2, z => by simp [List.isPrefixOf, isPrefixOf_self_append y2 z]

/-- Helper: a list is a contiguous sublist of any extension of itself on both
sides. -/
theorem listContainsSub_append_middle (x y z : List Char) :
    listContainsSub y ((x ++ y) ++ z) = true := by
  induction x with
  | nil =>
    have h1 : y.isPrefixOf (y ++ z) = true := isPrefixOf_self_append y z
    cases y with
    | nil => cases z <;> rfl
    | cons a y2 =>
      show ((a :: y2).isPrefixOf ((a :: y2) ++ z)
        || listContainsSub (a :: y2) (y2 ++ z)) = true
      rw [h1, Bool.true_or]
  | cons c x2 ih =>
    show (y.isPrefixOf (c :: ((x2 ++ y) ++ z))
      || listContainsSub y ((x2 ++ y) ++ z)) = true
    rw [ih, Bool.or_true]

/-- Helper: looking up the key just written by `pySet`. -/
theorem pySet_lookup (k : String) (v : PyVal) :
    ∀ l : Ctx, (pySet k v l).lookup k = some v := by
  intro l
  induction l with
  | nil => simp [pySet]
  | cons hd tl ih =>
    obtain ⟨k2, v2⟩ := hd
    by_cases h : k2 = k
    · simp [pySet, h, List.lookup]
    · have hbeq : (k == k2) = false := by
        simp [Ne.symm h]
      simp [pySet, h, hbeq, ih, List.lookup]

/-- The disclaimer block as the specification's claim words it: exactly four
fixed bullets (not-medical-advice, individual variation, consult-a-professional,
user-data-control). -/
def spec_four_disclaimers : String :=
  "**Important Disclaimers:**\n"
  ++ "- This is AI-generated educational guidance, not medical advice\n"
  ++ "- Individual results may vary based on personal circumstances\n"
  ++ "- Please consult healthcare providers for serious sleep disorders\n"
  ++ "- You have full control over your data and can modify or delete it anytime"

/-- C2 (amended): the critical rewrite prepends the apology clause to the
unmodified original text (which therefore survives as a substring), appends the
header and the five fixed disclaimer bullets of the source (the four the spec
lists plus the privacy-and-data-security bullet), leaves `agent` untouched, and
records `{modified, critical_issues, modifications_made}` — collected from
every critical-level entry of the checks dict — under
`data.responsible_ai_modification`. -/
theorem c2_critical_rewrite_contents (response : AgentResponse)
    (results : List (String × SCheck))
    (hdata : response.data = Option.none ∨ ∃ l, response.data = some (PyVal.dict l)) :
    (handle_critical_ai_issues response results).text =
      apology_clause ++ response.text ++ "\n\n" ++ critical_disclaimers ∧
    pyIn response.text (handle_critical_ai_issues response results).text = true ∧
    (handle_critical_ai_issues response results).agent = response.agent ∧
    ∃ l, (handle_critical_ai_issues response results).data = some (PyVal.dict l) ∧
      l.lookup "responsible_ai_modification" = some (PyVal.dict
        [("modified", PyVal.bool true),
         ("critical_issues", PyVal.list
           (((results.filter (fun kv => kv.2.risk_level = "critical")).map
             (fun kv => kv.2.message)).map PyVal.str)),
         ("modifications_made", PyVal.list
           (((results.filter (fun kv => kv.2.risk_level = "critical")).flatMap
             (fun kv => kv.2.suggestions)).map PyVal.str))]) := by
  refine ⟨rfl, ?_, rfl, ?_⟩
  · show listContainsSub response.text.data
      (apology_clause ++ response.text ++ "\n\n" ++ critical_disclaimers).data = true
    rw [String.data_append, String.data_append, String.data_append,
      List.append_assoc (apology_clause.data ++ response.text.data)]
    exact listContainsSub_append_middle apology_clause.data response.text.data _
  · rcases hdata with h | ⟨l, h⟩
    · refine ⟨[("responsible_ai_modification", PyVal.dict
        [("modified", PyVal.bool true),
         ("critical_issues", PyVal.list
           (((results.filter (fun kv => kv.2.risk_level = "critical")).map
             (fun kv => kv.2.message)).map PyVal.str)),
         ("modifications_made", PyVal.list
           (((results.filter (fun kv => kv.2.risk_level = "critical")).flatMap
             (fun kv => kv.2.suggestions)).map PyVal.str))])], ?_, ?_⟩
      · simp [handle_critical_ai_issues, h]
      · simp [List.lookup]
    · refine ⟨pySet "responsible_ai_modification" (PyVal.dict
        [("modified", PyVal.bool true),
         ("critical_issues", PyVal.list
           (((results.filter (fun kv => kv.2.risk_level = "critical")).map
             (fun kv => kv.2.message)).map PyVal.str)),
         ("modifications_made", PyVal.list
           (((results.filter (fun kv => kv.2.risk_level = "critical")).flatMap
             (fun kv => kv.2.suggestions)).map PyVal.str))]) l, ?_, ?_⟩
      · simp [handle_critical_ai_issues, h]
      · exact pySet_lookup _ _ l

/-- Witness for C2's amended statement at a concrete response with no prior
`data` payload and an empty checks dict. -/
theorem c2_critical_rewrite_contents_witness :
    (handle_critical_ai_issues { agent := "a", text := "t" } []).text =
      apology_clause ++ "t" ++ "\n\n" ++ critical_disclaimers ∧
    pyIn "t" (handle_critical_ai_issues { agent := "a", text := "t" } []).text = true ∧
    (handle_critical_ai_issues { agent := "a", text := "t" } []).agent = "a" ∧
    ∃ l, (handle_critical_ai_issues { agent := "a", text := "t" } []).data =
        some (PyVal.dict l) ∧
      l.lookup "responsible_ai_modification" = some (PyVal.dict
        [("modified", PyVal.bool true),
         ("critical_issues", PyVal.list []),
         ("modifications_made", PyVal.list [])]) := by
  have h := c2_critical_rewrite_contents { agent := "a", text := "t" } [] (Or.inl rfl)
  exact ⟨h.1, h.2.1, h.2.2.1, h.2.2.2⟩

/-- Counterexample to C2 as stated: the rewritten text is not the apology plus
original plus the claim's four bullets — the source appends a fifth
privacy-and-data-security bullet, absent from the claim's list. -/
theorem c2_counterexample :
    (handle_critical_ai_issues { agent := "a", text := "t" } []).text ≠
      apology_clause ++ "t" ++ "\n\n" ++ spec_four_disclaimers ∧
    pyIn "- Your privacy and data security are our top priorities"
      (handle_critical_ai_issues { agent := "a", text := "t" } []).text = true ∧
    pyIn "- Your privacy and data security are our top priorities"
      spec_four_disclaimers = false := by
  refine ⟨by decide, by decide, by decide⟩

/-- Helper: the wrapper never changes the `agent` tag of the core response
(neither the field merge nor the critical rewrite touches it). -/
theorem handle_agent_preserved (core : String → Ctx → AgentResponse)
    (action_type : String) (enable : Bool) (engineError : Option String)
    (oracle : RegexOracle) (msg : String) (ctx : Ctx) :
    (handle core action_type enable engineError oracle msg ctx).agent =
      (core msg ctx).agent := by
  simp only [handle, apply_ite AgentResponse.agent, handle_critical_ai_issues, ite_self]

/-- Helper: every return branch of `AddictionAgent._handle_core` tags the
response with `agent = "addiction"`. -/
theorem addiction_core_agent (oracle : RegexOracle) (content : AddictionContent)
    (msg : String) (ctx : Ctx) :
    (addiction_core oracle content msg ctx).agent = "addiction" := by
  simp only [addiction_core, apply_ite AgentResponse.agent, ite_self]

/-- The spec scenario input for the dependency short-circuit. -/
def coffee_scenario_message : String :=
  "I" ++ apos ++ "ve been drinking too much coffee every day and can" ++ apos ++ "t sleep"

/-- C5: on a non-empty, non-greeting message on which the dependency-context
predicate fires, the coordinator dispatches directly to the addiction agent —
the result is the addiction handler's response, the call log holds exactly that
one dispatch, and nothing depends on the intent classifier (the LLM reply is
universally quantified); in particular, the spec's coffee scenario, run through
the wrapped coordinator with the modelled addiction agent in the registry,
yields a response whose `agent` field is `"addiction"`. -/
theorem c5_dependency_short_circuit :
    (∀ (agents : SubAgents) (llm : Option String) (msg : String) (ctx : Ctx),
      pyEmpty (pyStrip msg) = false →
      ["hi", "hello", "hey"].contains (pyLower (pyStrip msg)) = false →
      detect_addiction_context msg = true →
      coordinator_core agents llm msg ctx =
        (agents.addiction msg ctx, [("addiction", msg, ctx)])) ∧
    (∀ (oracle oracle2 : RegexOracle) (content : AddictionContent)
       (llm eng eng2 : Option String)
       (a c n i s p : String → Ctx → AgentResponse),
      (handle (fun m cx => (coordinator_core
          { analyst := a, coach := c, nutrition := n,
            addiction := fun m2 c2 =>
              handle (addiction_core oracle2 content) "behavioral_change_suggestion"
                true eng2 oracle2 m2 c2,
            info := i, story := s, prediction := p }
          llm m cx).1)
        "request_routing" true eng oracle coffee_scenario_message []).agent =
          "addiction") := by
  have hroute : ∀ (agents : SubAgents) (llm : Option String) (msg : String) (ctx : Ctx),
      pyEmpty (pyStrip msg) = false →
      ["hi", "hello", "hey"].contains (pyLower (pyStrip msg)) = false →
      detect_addiction_context msg = true →
      coordinator_core agents llm msg ctx =
        (agents.addiction msg ctx, [("addiction", msg, ctx)]) := by
    intro agents llm msg ctx h1 h2 h3
    simp at h2
    simp [coordinator_core, h1, h2, h3]
  refine ⟨hroute, ?_⟩
  intro oracle oracle2 content llm eng eng2 a c n i s p
  rw [handle_agent_preserved]
  rw [hroute _ llm coffee_scenario_message [] (by decide) (by decide) (by decide)]
  rw [handle_agent_preserved]
  exact addiction_core_agent oracle2 content coffee_scenario_message []

/-- A concrete registry of constant sub-agents for witness evaluation; the
analytics agent carries a `data` payload so the chaining branch is exercised. -/
def demo_agents : SubAgents :=
  { analyst := fun _ _ =>
      { agent := "analytics", text := "", data := some (PyVal.dict [("avg", PyVal.nat 7)]) }
    coach := fun _ _ => { agent := "coach", text := "" }
    nutrition := fun _ _ => { agent := "nutrition", text := "" }
    addiction := fun _ _ => { agent := "addiction", text := "" }
    info := fun _ _ => { agent := "information", text := "" }
    story := fun _ _ => { agent := "storyteller", text := "" }
    prediction := fun _ _ => { agent := "prediction", text := "" } }

/-- Witness for C5's routing conjunct at the spec's coffee scenario. -/
theorem c5_dependency_short_circuit_witness :
    coordinator_core demo_agents Option.none coffee_scenario_message [] =
      (demo_agents.addiction coffee_scenario_message [],
       [("addiction", coffee_scenario_message, [])]) :=
  c5_dependency_short_circuit.1 demo_agents Option.none coffee_scenario_message []
    (by decide) (by decide) (by decide)

/-- C6: when the classified label is `"coach"`, the coordinator first invokes
the analytics agent, splices its `data` payload into the context under
`"analysis"`, and then invokes the coaching agent with the enriched context;
when the label is `"analytics"`, the analytics response is returned verbatim
and the coaching agent never appears in the call log. -/
theorem c6_analytics_coaching_chain (agents : SubAgents) (llm : Option String)
    (msg : String) (ctx : Ctx)
    (h1 : pyEmpty (pyStrip msg) = false)
    (h2 : ["hi", "hello", "hey"].contains (pyLower (pyStrip msg)) = false)
    (h3 : detect_addiction_context msg = false) :
    ((intent_llm llm msg).getD (intent_keyword msg) = "coach" →
      ∀ d, (agents.analyst msg ctx).data = some d →
        coordinator_core agents llm msg ctx =
          (agents.coach msg (pySet "analysis" d ctx),
           [("analytics", msg, ctx), ("coach", msg, pySet "analysis" d ctx)]) ∧
        (pySet "analysis" d ctx).lookup "analysis" = some d) ∧
    ((intent_llm llm msg).getD (intent_keyword msg) = "analytics" →
      coordinator_core agents llm msg ctx =
        (agents.analyst msg ctx, [("analytics", msg, ctx)]) ∧
      ((coordinator_core agents llm msg ctx).2.map Prod.fst).contains "coach" = false) := by
  simp at h2
  constructor
  · intro hint d hd
    refine ⟨?_, pySet_lookup _ _ ctx⟩
    simp [coordinator_core, h1, h2, h3, hint, hd]
  · intro hint
    have heq : coordinator_core agents llm msg ctx =
        (agents.analyst msg ctx, [("analytics", msg, ctx)]) := by
      simp [coordinator_core, h1, h2, h3, hint]
    refine ⟨heq, ?_⟩
    rw [heq]
    simp

/-- Witness for C6: the keyword fallback classifies `"give me tips"` as
`"coach"` (chained dispatch) and `"weekly report"` as `"analytics"`
(verbatim analytics response, no coaching call). -/
theorem c6_analytics_coaching_chain_witness :
    (coordinator_core demo_agents Option.none "give me tips" [] =
      (demo_agents.coach "give me tips"
        (pySet "analysis" (PyVal.dict [("avg", PyVal.nat 7)]) []),
       [("analytics", "give me tips", []),
        ("coach", "give me tips", pySet "analysis" (PyVal.dict [("avg", PyVal.nat 7)]) [])]) ∧
     (pySet "analysis" (PyVal.dict [("avg", PyVal.nat 7)]) []).lookup "analysis" =
       some (PyVal.dict [("avg", PyVal.nat 7)])) ∧
    (coordinator_core demo_agents Option.none "weekly report" [] =
      (demo_agents.analyst "weekly report" [], [("analytics", "weekly report", [])]) ∧
     ((coordinator_core demo_agents Option.none "weekly report" []).2.map
        Prod.fst).contains "coach" = false) := by
  refine ⟨(c6_analytics_coaching_chain demo_agents Option.none "give me tips" []
      (by decide) (by decide) (by decide)).1 (by decide) _ rfl,
    (c6_analytics_coaching_chain demo_agents Option.none "weekly report" []
      (by decide) (by decide) (by decide)).2 (by decide)⟩

/-- A concrete regex oracle consistent with the actual privacy patterns on the
witness texts: only the GPS/location alternation matches (the texts contain
`"GPS"` and none of the identifier, medical, address, or financial shapes). -/
def gps_oracle : RegexOracle := fun p _ =>
  if p = "\\bGPS|coordinates|latitude|longitude" then some "GPS" else Option.none

/-- C7 (amended): a text matching any identifier/medical/location/financial
leakage pattern always fails the ethical-data-handling check; its risk level is
`high` when no later check in the evaluation order (data minimization, consent
language, sensitive-data security, user rights) also fires — the source
reassigns the risk level at each finding instead of taking a maximum, so a
later finding overwrites the `high`. -/
theorem c7_privacy_leak_fails_check (oracle : RegexOracle) (text : String)
    (userKeys : List String)
    (h : detect_privacy_violations oracle text ≠ []) :
    (check_ethical_data_handling oracle text userKeys).passed = false ∧
    (follows_data_minimization userKeys = true →
     has_appropriate_consent_language text = true →
     (handles_sensitive_data userKeys = true → mentions_security text = true) →
     mentions_user_rights text = true →
     (check_ethical_data_handling oracle text userKeys).risk_level = .high) := by
  obtain ⟨v, vs, hv⟩ : ∃ v vs, detect_privacy_violations oracle text = v :: vs := by
    cases hvv : detect_privacy_violations oracle text with
    | nil => exact absurd hvv h
    | cons v vs => exact ⟨v, vs, rfl⟩
  constructor
  · simp [check_ethical_data_handling, hv]
  · intro hmin hcons hsec hrights
    cases hs : handles_sensitive_data userKeys with
    | false => simp [check_ethical_data_handling, hmin, hcons, hrights, hs, hv]
    | true => simp [check_ethical_data_handling, hmin, hcons, hrights, hs, hsec hs, hv]

/-- Witness for C7: a leaked GPS mention in a text that also carries consent and
user-rights language, with an empty user-data dict. -/
theorem c7_privacy_leak_fails_check_witness :
    detect_privacy_violations gps_oracle "Your GPS privacy control" ≠ [] ∧
    (check_ethical_data_handling gps_oracle "Your GPS privacy control" []).passed = false ∧
    (check_ethical_data_handling gps_oracle "Your GPS privacy control" []).risk_level =
      .high := by
  have h := c7_privacy_leak_fails_check gps_oracle "Your GPS privacy control" []
    (by decide)
  exact ⟨by decide, h.1, h.2 (by decide) (by decide) (by decide) (by decide)⟩

/-- Counterexample to C7 as stated: the bare text `"GPS"` matches a location
leakage pattern, yet the check's final risk level is `low`, not `high` — the
later consent and user-rights findings overwrite the risk level. -/
theorem c7_counterexample :
    detect_privacy_violations gps_oracle "GPS" ≠ [] ∧
    (check_ethical_data_handling gps_oracle "GPS" []).passed = false ∧
    (check_ethical_data_handling gps_oracle "GPS" []).risk_level = .low := by
  refine ⟨by decide, by decide, by decide⟩

/-- C8 (amended): for an `action_type` in the mandatory-transparency set, a
text missing the explanatory connective, the data-source reference, or the
limitations acknowledgment always fails the transparency check; the risk level
is `medium` provided the text carries an AI self-identification marker —
otherwise the attribution finding, evaluated later, overwrites the risk level
with `low`. -/
theorem c8_transparency_mandatory (text action_type : String) (ds fk : List String)
    (hreq : transparency_required_actions.contains action_type = true)
    (hmiss : contains_explanation text = false ∨ contains_data_source_info text = false ∨
      acknowledges_limitations text = false) :
    (check_transparency text action_type ds fk).passed = false ∧
    (has_clear_attribution text = true →
      (check_transparency text action_type ds fk).risk_level = .medium) := by
  have hmem : action_type ∈ transparency_required_actions := by simpa using hreq
  constructor
  · rcases hmiss with hm | hm | hm <;>
      simp [check_transparency, hreq, hmem, hm]
  · intro hattr
    rcases hmiss with hm | hm | hm <;>
    cases hf : (!fk.isEmpty && !explains_decision_factors text fk) <;>
    cases he : contains_explanation text <;>
    cases hsrc : contains_data_source_info text <;>
    cases hlim : acknowledges_limitations text <;>
      simp_all [check_transparency, hreq, hattr]

/-- Witness for C8: a mandatory `action_type` with a text that identifies as AI
but explains nothing. -/
theorem c8_transparency_mandatory_witness :
    transparency_required_actions.contains "data_analysis" = true ∧
    (check_transparency "ai zzz" "data_analysis" [] []).passed = false ∧
    (check_transparency "ai zzz" "data_analysis" [] []).risk_level = .medium := by
  have h := c8_transparency_mandatory "ai zzz" "data_analysis" [] []
    (by decide) (Or.inl (by decide))
  exact ⟨by decide, h.1, h.2 (by decide)⟩

/-- Counterexample to C8 as stated: `"data_analysis"` is in the mandatory set
and the text `"zzz"` lacks all three disclosures, yet the final risk level is
`low`, not `medium` — the later attribution finding overwrites it. -/
theorem c8_counterexample :
    transparency_required_actions.contains "data_analysis" = true ∧
    contains_explanation "zzz" = false ∧
    (check_transparency "zzz" "data_analysis" [] []).passed = false ∧
    (check_transparency "zzz" "data_analysis" [] []).risk_level = .low := by
  refine ⟨by decide, by decide, by decide, by decide⟩

end Morpheus
